import Mathlib

/-!
Verification development for the eyes.storybook repository.

We shallowly embed the parts of the source that the specification's claims
are about:

* `src/lib/EyesStorybook.js` — the per-story Eyes session wrapper.  Its
  mutable instance fields (`_title`, `_screenshot`, `_screenshotUrl`, the
  viewport-size handler, `_inferred`) become a `SessionState` record, and each
  method becomes a state-passing function.  A call to the SDK's
  `checkSingleWindowBase` (the single reported checkpoint) is recorded as an
  `Event.checkpoint` in an explicit event trace.

* the CLI entry script (`src/unnamed/part_001`) — configuration validation
  and the results handler that prints one line per `TestResult` and computes
  the process exit code (`EYES_TEST_FAILED_EXIT_CODE = 130` on visual
  failures, `1` from the catch handler on a fatal error, `0` otherwise).
  The legacy script (`src/unnamed/part_000`) has the same validation shape
  for its `maxRunningBrowsers` field; we embed that single check as well.

JavaScript truthiness matters in several validation branches, so optional
values are modelled as `Option` and falsiness is made explicit
(`none`/`some ""`/`some 0` are falsy).
-/

/-- Pixel dimensions; models the SDK's `RectangleSize`. -/
structure RectangleSize where
  width : Nat
  height : Nat
deriving DecidableEq, Repr

/-- An in-memory screenshot, modelled by its dimensions; models
`EyesSimpleScreenshot`, whose `getSize()` returns the wrapped image's size. -/
structure Screenshot where
  size : RectangleSize
deriving DecidableEq, Repr

/-- The mutable instance state of an `EyesStorybook` session object:
`_title`, `_screenshot`, `_screenshotUrl`, `_inferred` and the value held by
`_viewportSizeHandler`.  `none` models the JavaScript `undefined`. -/
structure SessionState where
  title : Option String
  screenshot : Option Screenshot
  screenshotUrl : Option String
  viewportSize : Option RectangleSize
  inferred : String
deriving DecidableEq, Repr

/-- The constructor's initialization: `_title`, `_screenshot` and
`_screenshotUrl` are set to `undefined`, `_inferred` to `''`; no viewport
size has been declared yet. -/
def initialState : SessionState :=
  { title := none
    screenshot := none
    screenshotUrl := none
    viewportSize := none
    inferred := "" }

/-- Observable side effect of a session method: one checkpoint reported to
the comparison backend (a `checkSingleWindowBase` call). -/
inductive Event where
  | checkpoint (title : Option String)
deriving DecidableEq, Repr

/-- The JavaScript expression `title || ''`: a falsy title (absent or the
empty string) becomes the empty string. -/
def jsOrEmpty (t : Option String) : String :=
  match t with
  | none => ""
  | some s => if s.isEmpty then "" else s

/-- `open(appName, testName, viewportSize)`: initializes the SDK base and
stores `new RectangleSize(viewportSize)` in the viewport-size handler.
The app and test names are consumed by the SDK base class and do not touch
the fields modelled here. -/
def openSession (s : SessionState) (vp : RectangleSize) : SessionState :=
  { s with viewportSize := some vp }

/-- `checkImage(screenshot, title)`: sets `_title` to `title || ''`, wraps
the image as the in-memory `_screenshot`, clears `_screenshotUrl`, and
reports one checkpoint via `checkSingleWindowBase`. -/
def checkImage (s : SessionState) (img : Screenshot) (t : Option String) :
    SessionState × List Event :=
  ({ s with title := some (jsOrEmpty t), screenshot := some img, screenshotUrl := none },
   [Event.checkpoint t])

/-- `checkUrl(imageLocation, title)`: sets `_title` to `title || ''`, stores
the URL as `_screenshotUrl`, clears `_screenshot`, and reports one
checkpoint via `checkSingleWindowBase`. -/
def checkUrl (s : SessionState) (loc : String) (t : Option String) :
    SessionState × List Event :=
  ({ s with title := some (jsOrEmpty t), screenshot := none, screenshotUrl := some loc },
   [Event.checkpoint t])

/-- `close(throwEx)`: `return this.getPromiseFactory().resolve();` — it
ignores `throwEx`, mutates nothing, reports nothing, and always resolves. -/
def close (s : SessionState) (throwEx : Bool) :
    Except String Unit × SessionState × List Event :=
  (Except.ok (), s, [])

/-- `getViewportSize()`: if an in-memory screenshot is held, resolve to the
screenshot's own size; otherwise resolve to the viewport-size handler's
value. -/
def getViewportSize (s : SessionState) : Option RectangleSize :=
  match s.screenshot with
  | some sc => some sc.size
  | none => s.viewportSize

/-- `getTitle()`: resolves to the current `_title` field. -/
def getTitle (s : SessionState) : Option String :=
  s.title

/-- One checkpoint call, of either kind, as it appears in an interleaving. -/
inductive CheckCall where
  | image (img : Screenshot) (t : Option String)
  | url (loc : String) (t : Option String)
deriving DecidableEq, Repr

/-- Apply one checkpoint call to the session state. -/
def applyCheck (s : SessionState) (c : CheckCall) : SessionState :=
  match c with
  | CheckCall.image img t => (checkImage s img t).1
  | CheckCall.url loc t => (checkUrl s loc t).1

/-- Run an interleaving of checkpoint calls from a starting state. -/
def runChecks (s : SessionState) (cs : List CheckCall) : SessionState :=
  cs.foldl applyCheck s

/-- At most one of the in-memory screenshot and the screenshot URL is set. -/
def exclusiveState (s : SessionState) : Prop :=
  ¬ (s.screenshot.isSome = true ∧ s.screenshotUrl.isSome = true)

/-- The event trace produced by one checkpoint call. -/
def checkCallEvents (s : SessionState) (c : CheckCall) : List Event :=
  match c with
  | CheckCall.image img t => (checkImage s img t).2
  | CheckCall.url loc t => (checkUrl s loc t).2

/-! ## The CLI results handler (`src/unnamed/part_001`) -/

/-- Terminal outcome of one story, as read by the results handler through
the SDK getters `getName`, `getIsNew`, `isPassed`, `getMismatches`,
`getMissing`, `getSteps`, `getHostDisplaySize`, `getAppUrls().getBatch()`. -/
structure TestResult where
  name : String
  isNew : Bool
  isPassed : Bool
  mismatches : Nat
  missing : Nat
  steps : Nat
  hostDisplaySize : RectangleSize
  batchUrl : String
deriving DecidableEq, Repr

/-- The distinguished "visual differences found" exit code of the CLI. -/
def EYES_TEST_FAILED_EXIT_CODE : Nat := 130

/-- The SDK's `RectangleSize.toString()`: `width` and `height` joined by
an `x`. -/
def rectToString (r : RectangleSize) : String :=
  toString r.width ++ "x" ++ toString r.height

/-- The per-story line header built by the handler:
`` `${result.getName()} [${result.getHostDisplaySize().toString()}] - ` ``. -/
def storyTitle (r : TestResult) : String :=
  r.name ++ " [" ++ rectToString r.hostDisplaySize ++ "] - "

/-- Color applied to the outcome label by `colors.green` / `colors.red`. -/
inductive ConsoleColor where
  | green
  | red
deriving DecidableEq, Repr

/-- One printed per-story line: header, label color, label text. -/
structure StoryLine where
  story : String
  color : ConsoleColor
  label : String
deriving DecidableEq, Repr

/-- The line printed for one result: `New` (green) if `getIsNew()`, else
`Passed` (green) if `isPassed()`, else the red
`` `Failed ${mismatches + missing} of ${steps}` `` label. -/
def resultLine (r : TestResult) : StoryLine :=
  if r.isNew then
    { story := storyTitle r, color := ConsoleColor.green, label := "New" }
  else if r.isPassed then
    { story := storyTitle r, color := ConsoleColor.green, label := "Passed" }
  else
    { story := storyTitle r
      color := ConsoleColor.red
      label := "Failed " ++ toString (r.mismatches + r.missing)
                 ++ " of " ++ toString r.steps }

/-- One step of the handler's exit-code accumulation: in the failed branch
(`!isNew && !isPassed`) the code runs
`if (exitCode < EYES_TEST_FAILED_EXIT_CODE) exitCode = EYES_TEST_FAILED_EXIT_CODE`. -/
def resultExitCode (exitCode : Nat) (r : TestResult) : Nat :=
  if r.isNew then exitCode
  else if r.isPassed then exitCode
  else if exitCode < EYES_TEST_FAILED_EXIT_CODE then EYES_TEST_FAILED_EXIT_CODE
  else exitCode

/-- Everything the results handler produces on the success path: the
per-story lines, the final console message, and the code passed to
`process.exit`. -/
structure RunReport where
  lines : List StoryLine
  finalMessage : String
  exitCode : Nat
deriving DecidableEq, Repr

/-- The results handler: with a non-empty result list it prints one line per
result, a `See details at <batch url>` pointer taken from `results[0]`, and
exits with the accumulated exit code (initialized to `0`); with an empty
list it prints `Test is finished but no results returned.` and exits with
the untouched initial `0`. -/
def processResults (results : List TestResult) : RunReport :=
  if results.length > 0 then
    { lines := results.map resultLine
      finalMessage := "See details at " ++
        (match results with
         | r :: _ => r.batchUrl
         | [] => "")
      exitCode := results.foldl resultExitCode 0 }
  else
    { lines := []
      finalMessage := "Test is finished but no results returned."
      exitCode := 0 }

/-- The whole verdict path: a fatal error reaches the catch handler, which
prints the error and calls `process.exit(1)`; a completed run exits with the
results handler's accumulated code. -/
def runExit (outcome : Except String (List TestResult)) : Nat :=
  match outcome with
  | Except.error _ => 1
  | Except.ok results => (processResults results).exitCode

/-- The handler's failed-branch test: the result is neither new nor passed. -/
def inFailedBranch (r : TestResult) : Bool :=
  !r.isNew && !r.isPassed

/-! ## Configuration validation (`src/unnamed/part_001`, with the
`maxRunningBrowsers` check of the legacy `src/unnamed/part_000`) -/

/-- One entry of `configs.viewportSize`.  A field is `none` when the object
lacks the property (`undefined`); `some 0` is present but falsy. -/
structure ViewportEntry where
  width : Option Nat
  height : Option Nat
deriving DecidableEq, Repr

/-- The configuration fields read by the validation block.  `none` models an
undefined field. -/
structure Configs where
  apiKey : Option String
  maxConcurrency : Option Int
  storybookApp : Option String
  storybookVersion : Option Int
  storybookAddress : Option String
  viewportSize : Option (List ViewportEntry)
deriving DecidableEq, Repr

/-- JavaScript falsiness of an optional string: `undefined` or `''`. -/
def jsFalsyStr (s : Option String) : Bool :=
  match s with
  | none => true
  | some v => v.isEmpty

/-- JavaScript falsiness of an optional number: `undefined` or `0`. -/
def jsFalsyInt (n : Option Int) : Bool :=
  match n with
  | none => true
  | some v => v == 0

/-- JavaScript falsiness of an optional natural: `undefined` or `0`. -/
def jsFalsyNat (n : Option Nat) : Bool :=
  match n with
  | none => true
  | some v => v == 0

def SUPPORTED_STORYBOOK3_APPS : List String :=
  ["react", "vue", "react-native", "angular", "polymer"]

/-- The guard of `throw new Error('maxConcurrency should be defined.')`:
`!configs.maxConcurrency && configs.maxConcurrency !== 0`.  The second
conjunct explicitly exempts `0` from the rejection. -/
def maxConcurrencyRejects (m : Option Int) : Bool :=
  jsFalsyInt m && !(m == some 0)

/-- The legacy script's guard for the same check, on its
`maxRunningBrowsers` field:
`!configs.maxRunningBrowsers && configs.maxRunningBrowsers !== 0`. -/
def maxRunningBrowsersRejects (m : Option Int) : Bool :=
  jsFalsyInt m && !(m == some 0)

/-- Normalization of `configs.storybookAddress`: a truthy address not ending
in `/` gets one appended. -/
def normalizeAddress (a : Option String) : Option String :=
  match a with
  | none => none
  | some addr =>
    if addr.isEmpty then some addr
    else if addr.endsWith "/" then some addr
    else some (addr ++ "/")

/-- The guard of the `storybookApp` check: a truthy app name not among the
supported apps is rejected. -/
def storybookAppRejects (a : Option String) : Bool :=
  match a with
  | some app => !SUPPORTED_STORYBOOK3_APPS.contains app
  | none => false

/-- The guard of the `storybookVersion` check: a truthy version other than
`2` or `3` is rejected. -/
def storybookVersionRejects (v : Option Int) : Bool :=
  match v with
  | some ver => !(ver == 2 || ver == 3)
  | none => false

/-- The `viewportSize.forEach` check throws exactly when the (truthy) list
has some entry whose `width` or `height` is falsy. -/
def viewportRejects (vs : Option (List ViewportEntry)) : Bool :=
  match vs with
  | none => false
  | some entries => !(entries.all fun v => !jsFalsyNat v.width && !jsFalsyNat v.height)

/-- The validation block of the CLI script, run top to bottom before any
story is discovered or dispatched.  Each `throw new Error(...)` becomes an
`Except.error`.  The `storybookAddress` normalization is a pure field update
that no later check reads, so it is applied on the success path.  (The
array-wrapping of a single viewport object is outside this model: the field
is already a list.) -/
def validateConfigs (c : Configs) : Except String Configs :=
  if jsFalsyStr c.apiKey then
    Except.error "The Applitools API Key is missing. Please add it to your configuration file or set ENV key."
  else if maxConcurrencyRejects c.maxConcurrency then
    Except.error "maxConcurrency should be defined."
  else if storybookAppRejects c.storybookApp then
    Except.error ("storybookApp should be one of ["
      ++ String.intercalate "," SUPPORTED_STORYBOOK3_APPS ++ "].")
  else if storybookVersionRejects c.storybookVersion then
    Except.error "storybookVersion should be 2 or 3."
  else if viewportRejects c.viewportSize then
    Except.error "ViewportSize object should contains width and height properties."
  else
    Except.ok { c with storybookAddress := normalizeAddress c.storybookAddress }

def isError (e : Except String α) : Bool :=
  match e with
  | Except.error _ => true
  | Except.ok _ => false

/-- The results a run hands to the results handler: none on an aborted run. -/
def resultsOf (e : Except String (List TestResult)) : List TestResult :=
  match e with
  | Except.error _ => []
  | Except.ok rs => rs

/-- The main execution flow: validation runs first (at module load); only a
configuration that validates reaches story discovery and the runner, here
abstracted as `dispatch`. -/
def runStories (c : Configs) (dispatch : Configs → List TestResult) :
    Except String (List TestResult) :=
  match validateConfigs c with
  | Except.error e => Except.error e
  | Except.ok c => Except.ok (dispatch c)

/-! ## Concrete fixtures used by witnesses and counterexamples -/

def sampleImage : Screenshot :=
  { size := { width := 200, height := 100 } }

def declaredViewport : RectangleSize :=
  { width := 800, height := 600 }

/-- A session that declared a viewport through `open` and then ran
`checkImage`: both the viewport handler and `_screenshot` are set. -/
def bothSetState : SessionState :=
  (checkImage (openSession initialState declaredViewport) sampleImage none).1

def newResult : TestResult :=
  { name := "Button: primary", isNew := true, isPassed := false,
    mismatches := 0, missing := 0, steps := 1,
    hostDisplaySize := { width := 800, height := 600 },
    batchUrl := "https://eyes.example/app/batches/1" }

def passedResult : TestResult :=
  { name := "Button: secondary", isNew := false, isPassed := true,
    mismatches := 0, missing := 0, steps := 1,
    hostDisplaySize := { width := 800, height := 600 },
    batchUrl := "https://eyes.example/app/batches/1" }

def failedResult : TestResult :=
  { name := "Button: danger", isNew := false, isPassed := false,
    mismatches := 1, missing := 0, steps := 3,
    hostDisplaySize := { width := 800, height := 600 },
    batchUrl := "https://eyes.example/app/batches/1" }

def validConfigs : Configs :=
  { apiKey := some "someApiKey"
    maxConcurrency := some 10
    storybookApp := some "react"
    storybookVersion := some 3
    storybookAddress := some "http://localhost:9001/"
    viewportSize := some [{ width := some 1024, height := some 768 }] }

def zeroConcurrencyConfigs : Configs :=
  { validConfigs with maxConcurrency := some 0 }

def missingConcurrencyConfigs : Configs :=
  { validConfigs with maxConcurrency := none }

def noApiKeyConfigs : Configs :=
  { validConfigs with apiKey := none }

def badViewportConfigs : Configs :=
  { validConfigs with viewportSize := some [{ width := none, height := some 600 }] }

/-! ## Helper lemmas -/

theorem exclusive_initialState : exclusiveState initialState := by
  simp [exclusiveState, initialState]

theorem exclusive_applyCheck (s : SessionState) (c : CheckCall) :
    exclusiveState (applyCheck s c) := by
  cases c <;> simp [exclusiveState, applyCheck, checkImage, checkUrl]

theorem exclusive_runChecks (cs : List CheckCall) (s : SessionState)
    (hs : exclusiveState s) : exclusiveState (runChecks s cs) := by
  induction cs generalizing s with
  | nil => exact hs
  | cons c cs ih => exact ih (applyCheck s c) (exclusive_applyCheck s c)

theorem foldl_resultExitCode_failed (rs : List TestResult) :
    rs.foldl resultExitCode EYES_TEST_FAILED_EXIT_CODE = EYES_TEST_FAILED_EXIT_CODE := by
  induction rs with
  | nil => rfl
  | cons r rs ih =>
    have hstep : resultExitCode EYES_TEST_FAILED_EXIT_CODE r = EYES_TEST_FAILED_EXIT_CODE := by
      simp [resultExitCode]
    simpa [List.foldl_cons, hstep] using ih

theorem foldl_resultExitCode_zero (rs : List TestResult) :
    rs.foldl resultExitCode 0 =
      if rs.any inFailedBranch then EYES_TEST_FAILED_EXIT_CODE else 0 := by
  induction rs with
  | nil => simp
  | cons r rs ih =>
    by_cases hn : r.isNew = true
    · simp [List.foldl_cons, resultExitCode, inFailedBranch, hn, ih]
    · by_cases hp : r.isPassed = true
      · simp [List.foldl_cons, resultExitCode, inFailedBranch, hn, hp, ih]
      · have hstep : resultExitCode 0 r = EYES_TEST_FAILED_EXIT_CODE := by
          simp [resultExitCode, hn, hp, EYES_TEST_FAILED_EXIT_CODE]
        simp [List.foldl_cons, hstep, inFailedBranch, hn, hp,
          foldl_resultExitCode_failed]

theorem processResults_exitCode (rs : List TestResult) :
    (processResults rs).exitCode = rs.foldl resultExitCode 0 := by
  cases rs <;> simp [processResults]

/-! ## Claim theorems -/

/-- C3: for every session and every interleaving of `checkImage` and
`checkUrl` calls, at most one of the in-memory screenshot and the screenshot
URL is set; `checkImage` sets the screenshot and clears the URL, `checkUrl`
sets the URL and clears the screenshot, so whichever kind was supplied last
wins and the other is `undefined`. -/
theorem checkImage_checkUrl_exclusive :
    (∀ cs : List CheckCall, exclusiveState (runChecks initialState cs)) ∧
    (∀ (cs : List CheckCall) (img : Screenshot) (t : Option String),
      (runChecks initialState (cs ++ [CheckCall.image img t])).screenshot = some img ∧
      (runChecks initialState (cs ++ [CheckCall.image img t])).screenshotUrl = none) ∧
    (∀ (cs : List CheckCall) (loc : String) (t : Option String),
      (runChecks initialState (cs ++ [CheckCall.url loc t])).screenshotUrl = some loc ∧
      (runChecks initialState (cs ++ [CheckCall.url loc t])).screenshot = none) := by
  refine ⟨fun cs => exclusive_runChecks cs initialState exclusive_initialState, ?_, ?_⟩
  · intro cs img t
    simp [runChecks, List.foldl_append, applyCheck, checkImage]
  · intro cs loc t
    simp [runChecks, List.foldl_append, applyCheck, checkUrl]

/-- C7: for every session state reached after a checkpoint of either kind
and for every value of `throwEx`, `close` resolves successfully, leaves the
session state unchanged, and reports no second checkpoint (the trace of the
checkpoint followed by the close holds exactly one reported checkpoint). -/
theorem close_after_checkpoint_noop (s : SessionState) (c : CheckCall) (throwEx : Bool) :
    (close (applyCheck s c) throwEx).1 = Except.ok () ∧
    (close (applyCheck s c) throwEx).2.1 = applyCheck s c ∧
    (close (applyCheck s c) throwEx).2.2 = [] ∧
    (checkCallEvents s c ++ (close (applyCheck s c) throwEx).2.2).length = 1 := by
  cases c <;> simp [close, applyCheck, checkCallEvents, checkImage, checkUrl]

/-- C10: a `checkImage` or `checkUrl` call whose title argument is omitted
or falsy stores the empty string (never `undefined`) as the session title,
and a subsequent `getTitle` resolves to the empty string. -/
theorem falsy_title_empty (t : Option String) (h : t = none ∨ t = some "") :
    (∀ (s : SessionState) (img : Screenshot),
      (checkImage s img t).1.title = some "" ∧
      getTitle (checkImage s img t).1 = some "") ∧
    (∀ (s : SessionState) (loc : String),
      (checkUrl s loc t).1.title = some "" ∧
      getTitle (checkUrl s loc t).1 = some "") := by
  have ht : jsOrEmpty t = "" := by
    rcases h with h | h <;> subst h <;> rfl
  constructor
  · intro s img
    constructor <;> simp [checkImage, getTitle, ht]
  · intro s loc
    constructor <;> simp [checkUrl, getTitle, ht]

theorem falsy_title_empty_witness :
    getTitle (checkImage initialState sampleImage none).1 = some "" :=
  ((falsy_title_empty none (Or.inl rfl)).1 initialState sampleImage).2

/-- C9: a completed run whose result list is empty prints
`Test is finished but no results returned.` and exits with code `0`, which
is neither the mismatch code nor the fatal code. -/
theorem empty_results_zero_exit :
    (processResults []).finalMessage = "Test is finished but no results returned." ∧
    (processResults []).exitCode = 0 ∧
    runExit (Except.ok []) = 0 ∧
    runExit (Except.ok []) ≠ EYES_TEST_FAILED_EXIT_CODE ∧
    runExit (Except.ok []) ≠ 1 := by
  refine ⟨rfl, rfl, rfl, by decide, by decide⟩

/-- C6 counterexample: a session that declared a `800x600` viewport through
`open` and then captured a `200x100` screenshot through `checkImage` has its
viewport size set, yet `getViewportSize` returns the screenshot's dimensions
rather than the pre-declared viewport value, contradicting the claim that
the pre-declared value is returned whenever the viewport size is set. -/
theorem viewport_priority_counterexample :
    bothSetState.viewportSize = some declaredViewport ∧
    bothSetState.screenshot = some sampleImage ∧
    getViewportSize bothSetState = some sampleImage.size ∧
    getViewportSize bothSetState ≠ some declaredViewport := by
  refine ⟨rfl, rfl, rfl, by decide⟩

/-- C6 amended: `getViewportSize` returns the captured screenshot's own
dimensions whenever an in-memory screenshot is held — even if a viewport was
pre-declared — and returns the pre-declared viewport value only when no
screenshot is held; in particular the effective viewport of a session whose
viewport was never set equals the size of its captured screenshot. -/
theorem viewport_priority_amended :
    (∀ (s : SessionState) (sc : Screenshot),
      s.screenshot = some sc → getViewportSize s = some sc.size) ∧
    (∀ s : SessionState,
      s.screenshot = none → getViewportSize s = s.viewportSize) ∧
    (∀ (img : Screenshot) (t : Option String),
      getViewportSize (checkImage initialState img t).1 = some img.size) := by
  refine ⟨?_, ?_, ?_⟩
  · intro s sc hs
    simp [getViewportSize, hs]
  · intro s hs
    simp [getViewportSize, hs]
  · intro img t
    simp [getViewportSize, checkImage]

theorem viewport_priority_amended_witness :
    getViewportSize bothSetState = some sampleImage.size ∧
    getViewportSize initialState = initialState.viewportSize :=
  ⟨viewport_priority_amended.1 bothSetState sampleImage rfl,
   viewport_priority_amended.2.1 initialState rfl⟩

/-- C1: for a completed run the exit code is the fatal code `1` if a fatal
error occurred; otherwise it is `EYES_TEST_FAILED_EXIT_CODE` exactly when
some result has `mismatches + missing > 0` (equivalently, by the hypothesis
relating the external SDK's fields, is neither new nor passed); otherwise it
is `0`. -/
theorem exit_code_law (rs : List TestResult)
    (hcoh : ∀ r ∈ rs, (inFailedBranch r = true ↔ 0 < r.mismatches + r.missing)) :
    (∀ e : String, runExit (Except.error e) = 1) ∧
    (runExit (Except.ok rs) = EYES_TEST_FAILED_EXIT_CODE ↔
      ∃ r ∈ rs, 0 < r.mismatches + r.missing) ∧
    ((¬ ∃ r ∈ rs, 0 < r.mismatches + r.missing) → runExit (Except.ok rs) = 0) := by
  have hexit : runExit (Except.ok rs) =
      if rs.any inFailedBranch then EYES_TEST_FAILED_EXIT_CODE else 0 := by
    simp only [runExit, processResults_exitCode, foldl_resultExitCode_zero]
  have hany : rs.any inFailedBranch = true ↔ ∃ r ∈ rs, 0 < r.mismatches + r.missing := by
    rw [List.any_eq_true]
    constructor
    · rintro ⟨r, hr, hfr⟩
      exact ⟨r, hr, (hcoh r hr).mp hfr⟩
    · rintro ⟨r, hr, hm⟩
      exact ⟨r, hr, (hcoh r hr).mpr hm⟩
  refine ⟨fun e => rfl, ?_, ?_⟩
  · rw [hexit]
    cases hb : rs.any inFailedBranch
    · rw [if_neg (by decide)]
      exact ⟨fun h0 => absurd h0 (by decide),
             fun hex => absurd (hany.mpr hex) (by simp [hb])⟩
    · rw [if_pos rfl]
      exact ⟨fun _ => hany.mp hb, fun _ => rfl⟩
  · intro hne
    rw [hexit, if_neg (fun hb => hne (hany.mp hb))]

theorem exit_code_law_witness :
    runExit (Except.ok [failedResult]) = EYES_TEST_FAILED_EXIT_CODE ∧
    runExit (Except.error "fatal setup error") = 1 := by
  have h := exit_code_law [failedResult]
    (by intro r hr; rw [List.mem_singleton] at hr; subst hr; decide)
  exact ⟨h.2.1.mpr ⟨failedResult, List.mem_singleton_self _, by decide⟩,
         h.1 "fatal setup error"⟩

/-- C4: a result is classified and reported as failed exactly when
`mismatches + missing > 0` (under the hypothesis relating the external
SDK's pass/new flags to those counters), and the line printed for such a
result is the red label `Failed <mismatches+missing> of <steps>`. -/
theorem failed_label_iff (r : TestResult)
    (hcoh : inFailedBranch r = true ↔ 0 < r.mismatches + r.missing) :
    ((resultLine r).color = ConsoleColor.red ↔ 0 < r.mismatches + r.missing) ∧
    (0 < r.mismatches + r.missing →
      (resultLine r).color = ConsoleColor.red ∧
      (resultLine r).label =
        "Failed " ++ toString (r.mismatches + r.missing) ++ " of " ++ toString r.steps) := by
  cases hn : r.isNew with
  | true =>
    have hm : ¬ 0 < r.mismatches + r.missing := by
      intro hm
      have h2 := hcoh.mpr hm
      rw [inFailedBranch, hn] at h2
      cases h2
    have hcolor : (resultLine r).color = ConsoleColor.green := by
      simp [resultLine, hn]
    exact ⟨⟨fun hc => absurd (hcolor.symm.trans hc) (by decide),
            fun h => absurd h hm⟩,
           fun h => absurd h hm⟩
  | false =>
    cases hp : r.isPassed with
    | true =>
      have hm : ¬ 0 < r.mismatches + r.missing := by
        intro hm
        have h2 := hcoh.mpr hm
        rw [inFailedBranch, hn, hp] at h2
        cases h2
      have hcolor : (resultLine r).color = ConsoleColor.green := by
        simp [resultLine, hn, hp]
      exact ⟨⟨fun hc => absurd (hcolor.symm.trans hc) (by decide),
              fun h => absurd h hm⟩,
             fun h => absurd h hm⟩
    | false =>
      have hm : 0 < r.mismatches + r.missing := by
        apply hcoh.mp
        rw [inFailedBranch, hn, hp]
        rfl
      refine ⟨⟨fun _ => hm, fun _ => ?_⟩, fun _ => ⟨?_, ?_⟩⟩ <;>
        simp [resultLine, hn, hp]

theorem failed_label_iff_witness :
    (resultLine failedResult).color = ConsoleColor.red ∧
    (resultLine failedResult).label =
      "Failed " ++ toString (failedResult.mismatches + failedResult.missing)
        ++ " of " ++ toString failedResult.steps := by
  have h := failed_label_iff failedResult (by decide)
  exact h.2 (by decide)

/-- C5: a completed run in which every result is either new or passed exits
with code `0`; in particular a new result never by itself causes a non-zero
exit code. -/
theorem new_or_passed_exit_zero (rs : List TestResult)
    (h : ∀ r ∈ rs, r.isNew = true ∨ r.isPassed = true) :
    (processResults rs).exitCode = 0 ∧ runExit (Except.ok rs) = 0 := by
  have hany : rs.any inFailedBranch = false := by
    rw [List.any_eq_false]
    intro r hr
    rcases h r hr with hn | hp
    · simp [inFailedBranch, hn]
    · simp [inFailedBranch, hp]
  have hz : (processResults rs).exitCode = 0 := by
    simp [processResults_exitCode, foldl_resultExitCode_zero, hany]
  exact ⟨hz, hz⟩

theorem new_or_passed_exit_zero_witness :
    runExit (Except.ok [newResult, passedResult]) = 0 := by
  have h := new_or_passed_exit_zero [newResult, passedResult]
    (by intro r hr; fin_cases hr
        · exact Or.inl rfl
        · exact Or.inr rfl)
  exact h.2

/-- C2 counterexample: a configuration whose concurrency limit equals `0`
passes validation — the guard `!maxConcurrency && maxConcurrency !== 0`
explicitly exempts `0` — and the run goes on to process stories and produce
results.  The legacy script's `maxRunningBrowsers` guard has the same
exemption. -/
theorem zero_concurrency_counterexample :
    zeroConcurrencyConfigs.maxConcurrency = some 0 ∧
    isError (validateConfigs zeroConcurrencyConfigs) = false ∧
    resultsOf (runStories zeroConcurrencyConfigs fun _ => [failedResult]) = [failedResult] ∧
    maxConcurrencyRejects (some 0) = false ∧
    maxRunningBrowsersRejects (some 0) = false := by
  refine ⟨rfl, ?_, ?_, by decide, by decide⟩
  · rfl
  · rfl

/-- C2 amended: an *undefined* concurrency limit is a configuration error
raised during validation, before any story is processed, and zero
`TestResults` are produced; a concurrency limit equal to `0`, however,
passes this validation check. -/
theorem missing_concurrency_amended (c : Configs) (h : c.maxConcurrency = none) :
    isError (validateConfigs c) = true ∧
    (∀ d : Configs → List TestResult, resultsOf (runStories c d) = []) := by
  have hE : ∃ msg, validateConfigs c = Except.error msg := by
    unfold validateConfigs
    cases hk : jsFalsyStr c.apiKey
    · have hm : maxConcurrencyRejects c.maxConcurrency = true := by
        rw [h]
        rfl
      exact ⟨"maxConcurrency should be defined.", by simp [hk, hm]⟩
    · exact ⟨"The Applitools API Key is missing. Please add it to your configuration file or set ENV key.",
        by simp [hk]⟩
  obtain ⟨msg, hmsg⟩ := hE
  constructor
  · simp [isError, hmsg]
  · intro d
    simp [runStories, resultsOf, hmsg]

theorem missing_concurrency_amended_witness :
    isError (validateConfigs missingConcurrencyConfigs) = true ∧
    resultsOf (runStories missingConcurrencyConfigs fun _ => [failedResult]) = [] := by
  have h := missing_concurrency_amended missingConcurrencyConfigs rfl
  exact ⟨h.1, h.2 _⟩

/-- C8: a configuration with a missing API key, or with a viewport-size
entry lacking a `width` or `height` property, is rejected during the
validation block — before any story is discovered or dispatched — and the
aborted run produces zero `TestResults`. -/
theorem invalid_config_aborts (c : Configs)
    (h : c.apiKey = none ∨
         ∃ entries, c.viewportSize = some entries ∧
           ∃ v ∈ entries, v.width = none ∨ v.height = none) :
    isError (validateConfigs c) = true ∧
    (∀ d : Configs → List TestResult, resultsOf (runStories c d) = []) := by
  have hE : ∃ msg, validateConfigs c = Except.error msg := by
    unfold validateConfigs
    rcases h with hk | ⟨entries, hv, v, hvmem, hbad⟩
    · rw [hk]
      exact ⟨_, rfl⟩
    · have h5 : viewportRejects c.viewportSize = true := by
        rw [hv, viewportRejects]
        have hall : entries.all (fun v => !jsFalsyNat v.width && !jsFalsyNat v.height) = false := by
          rw [List.all_eq_false]
          refine ⟨v, hvmem, ?_⟩
          rcases hbad with hw | hh
          · simp [hw, jsFalsyNat]
          · simp [hh, jsFalsyNat]
        rw [hall]
        rfl
      cases h1 : jsFalsyStr c.apiKey
      · cases h2 : maxConcurrencyRejects c.maxConcurrency
        · cases h3 : storybookAppRejects c.storybookApp
          · cases h4 : storybookVersionRejects c.storybookVersion
            · exact ⟨"ViewportSize object should contains width and height properties.",
                by simp [h1, h2, h3, h4, h5]⟩
            · exact ⟨"storybookVersion should be 2 or 3.", by simp [h1, h2, h3, h4]⟩
          · exact ⟨"storybookApp should be one of ["
              ++ String.intercalate "," SUPPORTED_STORYBOOK3_APPS ++ "].",
              by simp [h1, h2, h3]⟩
        · exact ⟨"maxConcurrency should be defined.", by simp [h1, h2]⟩
      · exact ⟨"The Applitools API Key is missing. Please add it to your configuration file or set ENV key.",
          by simp [h1]⟩
  obtain ⟨msg, hmsg⟩ := hE
  constructor
  · simp [isError, hmsg]
  · intro d
    simp [runStories, resultsOf, hmsg]

theorem invalid_config_aborts_witness :
    isError (validateConfigs noApiKeyConfigs) = true ∧
    resultsOf (runStories noApiKeyConfigs fun _ => [failedResult]) = [] ∧
    isError (validateConfigs badViewportConfigs) = true ∧
    resultsOf (runStories badViewportConfigs fun _ => [failedResult]) = [] := by
  have h1 := invalid_config_aborts noApiKeyConfigs (Or.inl rfl)
  have h2 := invalid_config_aborts badViewportConfigs
    (Or.inr ⟨[{ width := none, height := some 600 }], rfl,
      { width := none, height := some 600 }, List.mem_singleton_self _, Or.inl rfl⟩)
  exact ⟨h1.1, h1.2 _, h2.1, h2.2 _⟩
